import Mathlib

/-!
Verification of the `tuin_tool` repository: the query script `find_link.py`
and the storage module `lib/tuin_store.py`.

The script filters the `content` table with the SQLAlchemy expression
`Content.body.like("%{s2r}%".format(s2r=str2find))` against an SQLite
database, prints every matching title and a final `Count: {c}` line.

The storage module declares ten tables, a `DirectConn.rebuild` operation
(delete the database file, reconnect, re-create the schema) and an
`init_session` helper that builds a `sqlite:///` connection string and
returns a session.
-/

/-! ### SQLite LIKE semantics

The script runs against an SQLite engine (`sqlite:///` connection string),
so the filter semantics are those of SQLite's default `LIKE` operator:
`%` matches any sequence of characters, `_` matches any single character,
and ordinary characters compare case-insensitively for the ASCII range
(upper-case `A`-`Z` equals lower-case `a`-`z`; all other characters
compare exactly). There is no ESCAPE clause in the generated SQL.
-/

/-- ASCII case folding used by SQLite's default `LIKE`: upper-case ASCII
letters map to the corresponding lower-case letter, everything else is
unchanged. -/
def foldAscii (c : Char) : Char :=
  if 'A' ≤ c ∧ c ≤ 'Z' then Char.ofNat (c.toNat + 32) else c

/-- Character comparison of SQLite's default `LIKE`: equal after ASCII
case folding. -/
def charEqCI (p c : Char) : Bool := foldAscii p == foldAscii c

/-- SQLite `LIKE` pattern matching over lists of characters.
`%` matches any (possibly empty) run of characters, `_` matches exactly
one character, any other pattern character matches one text character up
to ASCII case. The whole text must be consumed. -/
def likeMatch : List Char → List Char → Bool
  | [], s => s.isEmpty
  | p :: ps, s =>
    if p = '%' then s.tails.any (fun t => likeMatch ps t)
    else
      match s with
      | [] => false
      | c :: s' => (if p = '_' then true else charEqCI p c) && likeMatch ps s'

/-- The pattern built by the script: `"%{s2r}%".format(s2r=s)`, i.e. the
search string wrapped in `%` wildcards. -/
def likePattern (s2r : String) : String := "%" ++ s2r ++ "%"

/-- The filter `Content.body.like(likePattern s2r)` applied to a body
string `b`. -/
def likeFilter (s2r : String) (b : String) : Bool :=
  likeMatch (likePattern s2r).data b.data

/-! ### The `content` table rows and the query script -/

/-- A row of the `content` table as declared in `tuin_store.Content`:
`id` (integer primary key), `node_id` (integer, unique, nullable),
`title` (text, not null), `body` (text, nullable). -/
structure Content where
  id : Int
  node_id : Option Int
  title : String
  body : Option String
deriving DecidableEq, Repr

/-- The hard-coded search string of `find_link.py`. -/
def str2find : String := "snoeitechnieken-en-onderhoud/plantenfamilies"

/-- Whether a row satisfies the filter
`Content.body.like("%{s2r}%".format(s2r=str2find))`.  A SQL `NULL` body
makes the `LIKE` predicate `NULL`, so the row is not selected. -/
def matchesRow (r : Content) : Bool :=
  match r.body with
  | none => false
  | some b => likeFilter str2find b

/-- The rows returned by
`tuin.query(Content).filter(Content.body.like(...)).all()`. -/
def matchedRows (db : List Content) : List Content :=
  db.filter matchesRow

/-- The lines printed by the script: one title per matched row, produced
by the `for content in contents: cnt += 1; print(content.title)` loop,
followed by `print("Count: {c}".format(c=cnt))`. -/
def scriptOutput (db : List Content) : List String :=
  let contents := matchedRows db
  let cnt := contents.foldl (fun c _ => c + 1) 0
  contents.map (fun content => content.title) ++ ["Count: " ++ toString cnt]

/-! ### Schema declarations of `lib/tuin_store.py`

Each SQLAlchemy `Column(...)` call is recorded as a `ColumnSpec`.
Following SQLAlchemy defaults, a column is nullable unless it is a
primary key or carries an explicit `nullable=False`. -/

/-- SQL column type used in the declarations (`Integer` or `Text`). -/
inductive ColType where
  | integer
  | text
deriving DecidableEq, Repr

/-- One declared column: name, type, and the declared constraints. -/
structure ColumnSpec where
  cname : String
  ctype : ColType
  primaryKey : Bool
  autoincrement : Bool
  nullable : Bool
  unique : Bool
  indexed : Bool
deriving DecidableEq, Repr

/-- `Column(Integer, primary_key=True, autoincrement=True)`. -/
def pkAutoCol (n : String) : ColumnSpec := ⟨n, ColType.integer, true, true, false, false, false⟩

/-- `Column(t, primary_key=True)`. -/
def pkCol (n : String) (t : ColType) : ColumnSpec := ⟨n, t, true, false, false, false, false⟩

/-- `Column(t)`: plain nullable column. -/
def plainCol (n : String) (t : ColType) : ColumnSpec := ⟨n, t, false, false, true, false, false⟩

/-- `Column(t, nullable=False)`. -/
def reqCol (n : String) (t : ColType) : ColumnSpec := ⟨n, t, false, false, false, false, false⟩

/-- `Column(t, unique=True)`. -/
def uniqCol (n : String) (t : ColType) : ColumnSpec := ⟨n, t, false, false, true, true, false⟩

/-- `Column(t, nullable=False, unique=True)`. -/
def reqUniqCol (n : String) (t : ColType) : ColumnSpec := ⟨n, t, false, false, false, true, false⟩

/-- `Column(Text, nullable=False, unique=True, index=True)`. -/
def reqUniqIdxCol (n : String) (t : ColType) : ColumnSpec := ⟨n, t, false, false, false, true, true⟩

/-- One declared table: `__tablename__` and its columns in declaration
order. -/
structure TableSpec where
  name : String
  columns : List ColumnSpec
deriving DecidableEq, Repr

/-- `class Content(Base)`, `__tablename__ = "content"`. -/
def contentSpec : TableSpec :=
  ⟨"content",
   [pkAutoCol "id", uniqCol "node_id" ColType.integer,
    reqCol "title" ColType.text, plainCol "body" ColType.text]⟩

/-- `class Flickr(Base)`, `__tablename__ = "flickr"`. -/
def flickrSpec : TableSpec :=
  ⟨"flickr",
   [pkAutoCol "id", uniqCol "node_id" ColType.integer,
    plainCol "photo_id" ColType.integer]⟩

/-- `class FlickrDetails(Base)`, `__tablename__ = "flickrdetails"`. -/
def flickrDetailsSpec : TableSpec :=
  ⟨"flickrdetails",
   [pkCol "photo_id" ColType.integer,
    reqCol "datetaken" ColType.integer, reqCol "title" ColType.text,
    reqCol "url_c" ColType.text, reqCol "url_l" ColType.text,
    reqCol "url_m" ColType.text, reqCol "url_n" ColType.text,
    reqCol "url_o" ColType.text, reqCol "url_q" ColType.text,
    reqCol "url_s" ColType.text, reqCol "url_sq" ColType.text,
    reqCol "url_t" ColType.text, reqCol "url_z" ColType.text]⟩

/-- `class History(Base)`, `__tablename__ = "history"`. -/
def historySpec : TableSpec :=
  ⟨"history",
   [pkAutoCol "id", reqCol "node_id" ColType.integer,
    reqCol "timestamp" ColType.integer]⟩

/-- `class Lophoto(Base)`, `__tablename__ = "lophoto"`. -/
def lophotoSpec : TableSpec :=
  ⟨"lophoto",
   [pkAutoCol "id", reqCol "node_id" ColType.integer,
    reqCol "filename" ColType.text, reqCol "uri" ColType.text,
    reqCol "created" ColType.integer]⟩

/-- `class Node(Base)`, `__tablename__ = "node"`. -/
def nodeSpec : TableSpec :=
  ⟨"node",
   [pkCol "id" ColType.integer, reqCol "parent_id" ColType.integer,
    reqCol "created" ColType.integer, reqCol "modified" ColType.integer,
    plainCol "revcnt" ColType.integer, plainCol "type" ColType.text]⟩

/-- `class Taxonomy(Base)`, `__tablename__ = "taxonomy"`. -/
def taxonomySpec : TableSpec :=
  ⟨"taxonomy",
   [pkAutoCol "id", reqCol "node_id" ColType.integer,
    reqCol "term_id" ColType.integer, reqCol "created" ColType.integer]⟩

/-- `class Term(Base)`, `__tablename__ = "term"`. -/
def termSpec : TableSpec :=
  ⟨"term",
   [pkCol "id" ColType.integer, reqCol "vocabulary_id" ColType.integer,
    reqCol "name" ColType.text, plainCol "description" ColType.text]⟩

/-- `class Vocabulary(Base)`, `__tablename__ = "vocabulary"`. -/
def vocabularySpec : TableSpec :=
  ⟨"vocabulary",
   [pkAutoCol "id", reqUniqCol "name" ColType.text,
    plainCol "description" ColType.text, plainCol "weight" ColType.integer]⟩

/-- `class User(Base)`, `__tablename__ = "users"`. -/
def userSpec : TableSpec :=
  ⟨"users",
   [pkAutoCol "id", reqUniqIdxCol "username" ColType.text,
    plainCol "password_hash" ColType.text]⟩

/-- `Base.metadata`: the ten declared tables, in declaration order. -/
def tuinSchema : List TableSpec :=
  [contentSpec, flickrSpec, flickrDetailsSpec, historySpec, lophotoSpec,
   nodeSpec, taxonomySpec, termSpec, vocabularySpec, userSpec]

/-! ### Database files, connections, `rebuild` and `init_session` -/

/-- A stored SQL value (row contents are opaque to the claims; they only
need equality). -/
inductive SqlVal where
  | int (i : Int)
  | text (s : String)
  | null
deriving DecidableEq, Repr

/-- A stored row: one value per column. -/
abbrev Row : Type := List SqlVal

/-- A table inside a database file: its schema and its rows. -/
structure Table where
  spec : TableSpec
  rows : List Row
deriving DecidableEq

/-- The contents of one SQLite database file. -/
structure Database where
  tables : List Table
deriving DecidableEq

/-- A freshly created SQLite file: no tables at all. -/
def emptyDatabase : Database := ⟨[]⟩

/-- Look a table up by name (`SELECT ... FROM t`). -/
def findTable (db : Database) (t : String) : Option Table :=
  db.tables.find? (fun tb => tb.spec.name == t)

/-- The filesystem visible to the tool: database files by path. -/
abbrev FS : Type := List (String × Database)

/-- Path lookup in the filesystem. -/
def FS.lookup (fs : FS) (p : String) : Option Database :=
  match fs with
  | [] => none
  | e :: rest => if e.1 = p then some e.2 else FS.lookup rest p

/-- Delete a path (the effect of a successful `os.remove`). -/
def removeFile : FS → String → FS
  | [], _ => []
  | e :: rest, p => if e.1 = p then removeFile rest p else e :: removeFile rest p

/-- Errors raised at the filesystem level. -/
inductive FsError where
  | fileNotFound
deriving DecidableEq, Repr

/-- `os.remove(self.db)`: deletes the file, raises `FileNotFoundError`
when the path does not exist. -/
def osRemove (fs : FS) (p : String) : Except FsError FS :=
  match FS.lookup fs p with
  | none => Except.error FsError.fileNotFound
  | some _ => Except.ok (removeFile fs p)

/-- `sqlite3.connect(p)` / first use of a `sqlite:///p` engine: creates
an empty database file when the path does not exist, otherwise leaves
the filesystem untouched. -/
def sqliteConnect (fs : FS) (p : String) : FS :=
  match FS.lookup fs p with
  | some _ => fs
  | none => fs ++ [(p, emptyDatabase)]

/-- `Base.metadata.create_all(engine)`: issues `CREATE TABLE` for every
declared table not already present (SQLAlchemy checks first), in
declaration order; existing tables are left untouched. -/
def createAll (db : Database) : Database :=
  ⟨tuinSchema.foldl
    (fun ts sp => if ts.any (fun tb => tb.spec.name == sp.name) then ts else ts ++ [⟨sp, []⟩])
    db.tables⟩

/-- Apply `create_all` to the database file at `p`. -/
def applyCreateAll (fs : FS) (p : String) : FS :=
  fs.map (fun e => if e.1 = p then (e.1, createAll e.2) else e)

/-- `DirectConn.rebuild(self)`: `os.remove(self.db)`, then reconnect
(which recreates the file), then `Base.metadata.create_all(engine)`.
When `os.remove` raises, the exception propagates and the filesystem is
returned unchanged together with the error. -/
def rebuild (fs : FS) (p : String) : FS × Option FsError :=
  match osRemove fs p with
  | Except.error e => (fs, some e)
  | Except.ok fs₁ => (applyCreateAll (sqliteConnect fs₁ p) p, none)

/-- An SQLAlchemy engine: the connection string and the echo flag.
Creating an engine opens no connection and touches no file. -/
structure Engine where
  connString : String
  echo : Bool
deriving DecidableEq

/-- A session bound to an engine (`sessionmaker(bind=engine)()`). -/
structure Session where
  engine : Engine
deriving DecidableEq

/-- `set_engine(conn_string, echo=False)`. -/
def set_engine (conn_string : String) (echo : Bool) : Engine :=
  ⟨conn_string, echo⟩

/-- `set_session4engine(engine)`. -/
def set_session4engine (engine : Engine) : Session :=
  ⟨engine⟩

/-- `init_session(db, echo=False)`: builds
`"sqlite:///{db}".format(db=db)` and returns a session for it. No file
is opened yet. -/
def init_session (db : String) (echo : Bool) : Session :=
  set_session4engine (set_engine ("sqlite:///" ++ db) echo)

/-- The file path encoded in a session's `sqlite:///` connection string
(drop the 10-character scheme). -/
def connPath (s : Session) : String :=
  String.mk (s.engine.connString.data.drop 10)

/-- Errors raised by the SQL engine when a query runs. -/
inductive QueryError where
  | noSuchTable (t : String)
deriving DecidableEq, Repr

/-- `session.query(T).all()` for the table named `t`: the first use of
the engine opens the SQLite file (creating an empty one when absent),
then `SELECT`s from `t` — an error when the file holds no such table,
otherwise all stored rows. -/
def queryAll (fs : FS) (s : Session) (t : String) : FS × Except QueryError (List Row) :=
  let p := connPath s
  let fs₁ := sqliteConnect fs p
  match FS.lookup fs₁ p with
  | none => (fs₁, Except.error (QueryError.noSuchTable t))
  | some db =>
    match findTable db t with
    | some tb => (fs₁, Except.ok tb.rows)
    | none => (fs₁, Except.error (QueryError.noSuchTable t))

/-! ### Remaining definitions: rebuild result, proof constructions and
sample data used by concrete instantiations -/

/-- The database produced by `create_all` on a fresh file: the ten
declared tables, each with zero rows. -/
def tuinDatabase : Database := ⟨tuinSchema.map (fun sp => Table.mk sp [])⟩

/-- Strip the wildcards out of a search string: `%` is dropped, `_` is
replaced by the letter `a`, other characters are kept. The result never
contains a wildcard, yet always satisfies the `LIKE` pattern built from
the original string. -/
def deWild (l : List Char) : List Char :=
  l.filterMap (fun c => if c = '%' then none else if c = '_' then some 'a' else some c)

/-- A body that contains the search string literally. -/
def hitBody : String := "zie snoeitechnieken-en-onderhoud/plantenfamilies hier"

/-- A `content` row whose body contains the search string literally. -/
def sampleHit : Content := ⟨1, some 1, "Plantenfamilies", some hitBody⟩

/-- A `content` row whose body is unrelated to the search string. -/
def sampleMiss : Content := ⟨2, some 2, "Niets", some "nothing here"⟩

/-- The search string in upper case: not a literal occurrence. -/
def allCapsBody : String := "SNOEITECHNIEKEN-EN-ONDERHOUD/PLANTENFAMILIES"

/-- A `content` row whose body is the upper-cased search string. -/
def sampleCaps : Content := ⟨3, some 3, "Hoofdstuk", some allCapsBody⟩

/-- The search string with only its first letter capitalised. -/
def capSBody : String := "Snoeitechnieken-en-onderhoud/plantenfamilies"

/-- A `content` row whose body differs from the search string only in
the case of its first letter. -/
def sampleCapS : Content := ⟨4, some 4, "Snoeien", some capSBody⟩

/-- A filesystem holding one freshly rebuilt database. -/
def sampleFS : FS := [("tuin.db", tuinDatabase)]

/-! ### Lemmas about the `LIKE` matcher -/

theorem charEqCI_refl (c : Char) : charEqCI c c = true := by
  simp [charEqCI]

theorem likeMatch_pct_any (s : List Char) : likeMatch ['%'] s = true := by
  simp only [likeMatch, if_pos]
  rw [List.any_eq_true]
  exact ⟨[], (List.mem_tails _ _).mpr List.nil_suffix, rfl⟩

theorem likeMatch_star_iff (ps : List Char) (s : List Char) :
    likeMatch ('%' :: ps) s = true ↔ ∃ t, t <:+ s ∧ likeMatch ps t = true := by
  simp only [likeMatch, if_pos, List.any_eq_true]
  constructor
  · rintro ⟨t, ht, h⟩
    exact ⟨t, (List.mem_tails _ _).mp ht, h⟩
  · rintro ⟨t, ht, h⟩
    exact ⟨t, (List.mem_tails _ _).mpr ht, h⟩

theorem likeMatch_star_intro (ps : List Char) (s : List Char)
    (h : likeMatch ps s = true) : likeMatch ('%' :: ps) s = true :=
  (likeMatch_star_iff ps s).mpr ⟨s, List.suffix_refl s, h⟩

theorem likeMatch_lit_iff (p : List Char) (hp : ∀ c ∈ p, ¬ c = '%' ∧ ¬ c = '_')
    (ps : List Char) : ∀ s : List Char,
    likeMatch (p ++ ps) s = true ↔
      ∃ s₁ s₂, s = s₁ ++ s₂ ∧ s₁.map foldAscii = p.map foldAscii ∧ likeMatch ps s₂ = true := by
  induction p with
  | nil =>
    intro s
    constructor
    · intro h
      exact ⟨[], s, rfl, rfl, h⟩
    · rintro ⟨s₁, s₂, hs, hm, h⟩
      have hnil : s₁ = [] := List.map_eq_nil_iff.mp hm
      subst hnil
      simpa using hs ▸ h
  | cons c p ih =>
    intro s
    have hc := hp c (List.mem_cons_self c p)
    have ih' := ih (fun d hd => hp d (List.mem_cons_of_mem c hd))
    cases s with
    | nil =>
      simp only [List.cons_append, likeMatch, if_neg hc.1]
      constructor
      · intro h
        exact absurd h (by simp)
      · rintro ⟨s₁, s₂, hs, hm, _⟩
        have hnil : s₁ = [] := by
          cases s₁ with
          | nil => rfl
          | cons a s₁' => exact absurd hs (by simp)
        subst hnil
        exact absurd hm (by simp)
    | cons d s' =>
      simp only [List.cons_append, likeMatch, if_neg hc.1, if_neg hc.2,
        Bool.and_eq_true, charEqCI, beq_iff_eq, List.append_eq]
      rw [ih' s']
      constructor
      · rintro ⟨hcd, s₁, s₂, hs, hm, h⟩
        refine ⟨d :: s₁, s₂, by rw [hs, List.cons_append], ?_, h⟩
        simp [List.map_cons, hm, hcd]
      · rintro ⟨s₁, s₂, hs, hm, h⟩
        cases s₁ with
        | nil => exact absurd hm (by simp)
        | cons a s₁' =>
          have had : a = d := by
            have := congrArg (fun l => l.head?) hs
            simpa using this.symm
          have hs' : s' = s₁' ++ s₂ := by
            have := congrArg (fun l => l.tail) hs
            simpa using this
          subst had
          have hm' := hm
          simp only [List.map_cons, List.cons.injEq] at hm'
          exact ⟨hm'.1.symm, s₁', s₂, hs', hm'.2, h⟩

theorem likePattern_data (s : String) :
    (likePattern s).data = '%' :: (s.data ++ ['%']) := by
  simp [likePattern, String.data_append]

theorem likeFilter_iff_foldSub (s2r : String)
    (hp : ∀ c ∈ s2r.data, ¬ c = '%' ∧ ¬ c = '_') (b : String) :
    likeFilter s2r b = true ↔
      (s2r.data.map foldAscii) <:+: (b.data.map foldAscii) := by
  unfold likeFilter
  rw [likePattern_data, likeMatch_star_iff]
  constructor
  · rintro ⟨t, ⟨u, hu⟩, hm⟩
    obtain ⟨t₁, t₂, ht, hmap, _⟩ := (likeMatch_lit_iff s2r.data hp ['%'] t).mp hm
    refine ⟨u.map foldAscii, t₂.map foldAscii, ?_⟩
    rw [← hmap, ← List.map_append, ← List.map_append]
    rw [List.append_assoc, ← ht, hu]
  · rintro ⟨u, v, huv⟩
    refine ⟨b.data.drop u.length, List.drop_suffix u.length b.data, ?_⟩
    rw [likeMatch_lit_iff s2r.data hp ['%'] (b.data.drop u.length)]
    refine ⟨(b.data.drop u.length).take s2r.data.length,
            (b.data.drop u.length).drop s2r.data.length,
            (List.take_append_drop _ _).symm, ?_, likeMatch_pct_any _⟩
    rw [List.map_take, List.map_drop]
    rw [← huv, List.append_assoc]
    rw [show u.length = (u : List Char).length from rfl, List.drop_left]
    rw [show s2r.data.length = (s2r.data.map foldAscii).length from
      (List.length_map _ _).symm, List.take_left]

theorem str2find_noWild : ∀ c ∈ str2find.data, ¬ c = '%' ∧ ¬ c = '_' := by
  decide

theorem deWild_matches : ∀ l : List Char, likeMatch (l ++ ['%']) (deWild l) = true := by
  intro l
  induction l with
  | nil => exact likeMatch_pct_any _
  | cons c l ih =>
    by_cases h1 : c = '%'
    · subst h1
      have hd : deWild ('%' :: l) = deWild l := by simp [deWild]
      rw [hd, List.cons_append]
      exact likeMatch_star_intro _ _ ih
    · by_cases h2 : c = '_'
      · subst h2
        have hd : deWild ('_' :: l) = 'a' :: deWild l := by simp [deWild]
        rw [hd, List.cons_append]
        simp only [likeMatch, if_neg (by decide : ¬ ('_' : Char) = '%'), if_pos rfl,
          Bool.true_and]
        exact ih
      · have hd : deWild (c :: l) = c :: deWild l := by simp [deWild, h1, h2]
        rw [hd, List.cons_append]
        simp only [likeMatch, if_neg h1, if_neg h2, Bool.and_eq_true]
        exact ⟨charEqCI_refl c, ih⟩

theorem deWild_no_wild (l : List Char) : ∀ c ∈ deWild l, ¬ c = '%' ∧ ¬ c = '_' := by
  intro c hc
  obtain ⟨a, _, ha⟩ := List.mem_filterMap.mp hc
  by_cases h1 : a = '%'
  · simp [h1] at ha
  · by_cases h2 : a = '_'
    · simp [h1, h2] at ha
      subst ha
      exact ⟨by decide, by decide⟩
    · simp [h1, h2] at ha
      subst ha
      exact ⟨h1, h2⟩

/-! ### Lemmas about the filesystem model -/

theorem countLoop_eq_length (l : List Content) :
    ∀ n : Nat, l.foldl (fun c _ => c + 1) n = n + l.length := by
  induction l with
  | nil => intro n; simp
  | cons a l ih =>
    intro n
    simp only [List.foldl_cons, List.length_cons, ih]
    omega

theorem lookup_removeFile (fs : FS) (p : String) :
    FS.lookup (removeFile fs p) p = none := by
  induction fs with
  | nil => rfl
  | cons e rest ih =>
    by_cases h : e.1 = p
    · simpa [removeFile, h] using ih
    · simpa [removeFile, FS.lookup, h] using ih

theorem lookup_append_single (fs : FS) (p : String) (d : Database)
    (h : FS.lookup fs p = none) : FS.lookup (fs ++ [(p, d)]) p = some d := by
  induction fs with
  | nil => simp [FS.lookup]
  | cons e rest ih =>
    by_cases he : e.1 = p
    · simp [FS.lookup, he] at h
    · simp only [FS.lookup, he, if_neg, List.cons_append] at h ⊢
      exact ih h

theorem lookup_applyCreateAll (fs : FS) (p : String) (d : Database)
    (h : FS.lookup fs p = some d) :
    FS.lookup (applyCreateAll fs p) p = some (createAll d) := by
  induction fs with
  | nil => simp [FS.lookup] at h
  | cons e rest ih =>
    by_cases he : e.1 = p
    · simp [FS.lookup, he] at h
      simp [applyCreateAll, FS.lookup, he, h]
    · simp [FS.lookup, he] at h
      simp [applyCreateAll, FS.lookup, he] at ih ⊢
      exact ih h

theorem createAll_empty : createAll emptyDatabase = tuinDatabase := by
  decide

/-! ### Claim theorems -/

/-- Claim C1: the script's final line is `Count: n` where `n` is exactly
the number of matched rows, which also equals the number of title lines
printed before it; with zero matches the script still prints
`Count: 0`. -/
theorem script_count_correct (db : List Content) :
    scriptOutput db
        = (matchedRows db).map (fun c => c.title)
          ++ ["Count: " ++ toString (matchedRows db).length]
      ∧ (scriptOutput db).length = (matchedRows db).length + 1
      ∧ (matchedRows db = [] → scriptOutput db = ["Count: 0"]) := by
  have hfold : (matchedRows db).foldl (fun c _ => c + 1) 0 = (matchedRows db).length := by
    simpa using countLoop_eq_length (matchedRows db) 0
  refine ⟨?_, ?_, ?_⟩
  · simp [scriptOutput, hfold]
  · simp [scriptOutput]
  · intro h
    simp only [scriptOutput, h]
    rfl

/-- Witness for C1 at the empty database. -/
theorem script_count_correct_witness : scriptOutput [] = ["Count: 0"] :=
  (script_count_correct []).2.2 rfl

/-- Claim C2: a row whose body literally contains the hard-coded search
string is in the match set, and its title is among the printed lines. -/
theorem row_with_substring_matched (db : List Content) (r : Content) (b : String)
    (hr : r ∈ db) (hb : r.body = some b) (hsub : str2find.data <:+: b.data) :
    r ∈ matchedRows db ∧ r.title ∈ scriptOutput db := by
  have hm : matchesRow r = true := by
    simp only [matchesRow, hb]
    rw [likeFilter_iff_foldSub str2find str2find_noWild]
    exact hsub.map foldAscii
  have h1 : r ∈ matchedRows db := List.mem_filter.mpr ⟨hr, hm⟩
  refine ⟨h1, ?_⟩
  simp only [scriptOutput]
  exact List.mem_append_left _ (List.mem_map_of_mem _ h1)

/-- Witness for C2: a concrete row containing the search string. -/
theorem row_with_substring_matched_witness :
    sampleHit ∈ matchedRows [sampleHit] ∧ sampleHit.title ∈ scriptOutput [sampleHit] :=
  row_with_substring_matched [sampleHit] sampleHit hitBody
    (List.mem_singleton.mpr rfl) rfl (by decide)

/-- Claim C3 is false as stated: this row's body does not contain the
search string, yet the row is in the match set, because SQLite `LIKE` is
ASCII case-insensitive. -/
theorem row_without_substring_matched_cex :
    (¬ str2find.data <:+: allCapsBody.data) ∧ sampleCaps ∈ matchedRows [sampleCaps] :=
  ⟨by decide, by decide⟩

/-- Claim C3 (amended): a row whose body does not contain the search
string even after ASCII case folding is not in the match set (a NULL
body never matches either). -/
theorem row_without_ci_substring_not_matched (db : List Content) (r : Content)
    (h : ∀ b : String, r.body = some b →
      ¬ (str2find.data.map foldAscii) <:+: (b.data.map foldAscii)) :
    r ∉ matchedRows db := by
  intro hmem
  have hm := (List.mem_filter.mp hmem).2
  cases hby : r.body with
  | none => simp [matchesRow, hby] at hm
  | some b =>
    have hf : likeFilter str2find b = true := by
      simpa [matchesRow, hby] using hm
    exact h b hby ((likeFilter_iff_foldSub str2find str2find_noWild b).mp hf)

/-- Witness for the amended C3: a concrete unrelated row is not matched. -/
theorem row_without_ci_substring_not_matched_witness :
    sampleMiss ∉ matchedRows [sampleMiss] :=
  row_without_ci_substring_not_matched [sampleMiss] sampleMiss
    (by intro b hb; simp [sampleMiss] at hb; subst hb; decide)

/-- Claim C4 is false as stated: a body differing from the search string
only in the case of one letter is nevertheless in the match set. -/
theorem case_sensitivity_cex :
    (¬ str2find.data <:+: capSBody.data) ∧ sampleCapS ∈ matchedRows [sampleCapS] :=
  ⟨by decide, by decide⟩

/-- Claim C4 (amended): the filter is ASCII case-insensitive — bodies
equal up to ASCII case folding receive the same filter verdict. -/
theorem likeFilter_case_insensitive (b b' : String)
    (h : b.data.map foldAscii = b'.data.map foldAscii) :
    likeFilter str2find b = likeFilter str2find b' := by
  have hiff : likeFilter str2find b = true ↔ likeFilter str2find b' = true := by
    rw [likeFilter_iff_foldSub str2find str2find_noWild,
      likeFilter_iff_foldSub str2find str2find_noWild, h]
  cases hb : likeFilter str2find b <;> cases hb' : likeFilter str2find b' <;> simp_all

/-- Witness for the amended C4: the two case variants of the search
string get the same verdict. -/
theorem likeFilter_case_insensitive_witness :
    likeFilter str2find capSBody = likeFilter str2find allCapsBody :=
  likeFilter_case_insensitive capSBody allCapsBody (by decide)

/-- Claim C10: a search string containing `%` or `_` is not matched
literally — some body not containing the string satisfies the filter. -/
theorem wildcard_search_not_literal (s : String)
    (h : '%' ∈ s.data ∨ '_' ∈ s.data) :
    ∃ b : String, likeFilter s b = true ∧ ¬ (s.data <:+: b.data) := by
  refine ⟨String.mk (deWild s.data), ?_, ?_⟩
  · unfold likeFilter
    rw [likePattern_data]
    exact likeMatch_star_intro _ _ (deWild_matches s.data)
  · intro hinf
    cases h with
    | inl hc => exact (deWild_no_wild s.data '%' (hinf.subset hc)).1 rfl
    | inr hc => exact (deWild_no_wild s.data '_' (hinf.subset hc)).2 rfl

/-- Witness for C10 with the search string `plant_n`. -/
theorem wildcard_search_not_literal_witness :
    ∃ b : String, likeFilter "plant_n" b = true
      ∧ ¬ (("plant_n" : String).data <:+: b.data) :=
  wildcard_search_not_literal "plant_n" (Or.inr (by decide))

/-- Claim C5: `rebuild` on a configuration whose database file does not
exist fails with a file-not-found error and creates no file. -/
theorem rebuild_missing_file (fs : FS) (p : String)
    (h : FS.lookup fs p = none) :
    rebuild fs p = (fs, some FsError.fileNotFound)
      ∧ FS.lookup (rebuild fs p).1 p = none := by
  have heq : rebuild fs p = (fs, some FsError.fileNotFound) := by
    simp [rebuild, osRemove, h]
  exact ⟨heq, by rw [heq]; exact h⟩

/-- Witness for C5 on the empty filesystem. -/
theorem rebuild_missing_file_witness :
    rebuild [] "tuin.db" = ([], some FsError.fileNotFound)
      ∧ FS.lookup (rebuild [] "tuin.db").1 "tuin.db" = none :=
  rebuild_missing_file [] "tuin.db" rfl

/-- Claim C6: `rebuild` on an existing file succeeds and leaves exactly
the ten declared tables with their declared columns and constraints, all
holding zero rows, whatever the file held before. -/
theorem rebuild_resets_schema (fs : FS) (p : String) (d : Database)
    (h : FS.lookup fs p = some d) :
    (rebuild fs p).2 = none
      ∧ FS.lookup (rebuild fs p).1 p = some tuinDatabase
      ∧ tuinDatabase.tables.map (fun tb => tb.spec.name)
          = ["content", "flickr", "flickrdetails", "history", "lophoto",
             "node", "taxonomy", "term", "vocabulary", "users"]
      ∧ tuinDatabase.tables.all (fun tb => tb.rows.isEmpty) = true := by
  have hre : rebuild fs p
      = (applyCreateAll (sqliteConnect (removeFile fs p) p) p, none) := by
    simp [rebuild, osRemove, h]
  have h1 : FS.lookup (removeFile fs p) p = none := lookup_removeFile fs p
  have h2 : sqliteConnect (removeFile fs p) p
      = removeFile fs p ++ [(p, emptyDatabase)] := by
    simp [sqliteConnect, h1]
  have h3 : FS.lookup (removeFile fs p ++ [(p, emptyDatabase)]) p = some emptyDatabase :=
    lookup_append_single _ p emptyDatabase h1
  have h4 : FS.lookup (applyCreateAll (removeFile fs p ++ [(p, emptyDatabase)]) p) p
      = some (createAll emptyDatabase) := lookup_applyCreateAll _ p emptyDatabase h3
  refine ⟨by rw [hre], ?_, by decide, by decide⟩
  rw [hre]
  simp only
  rw [h2, h4, createAll_empty]

/-- Witness for C6: rebuilding over an existing empty file. -/
theorem rebuild_resets_schema_witness :
    (rebuild [("tuin.db", emptyDatabase)] "tuin.db").2 = none
      ∧ FS.lookup (rebuild [("tuin.db", emptyDatabase)] "tuin.db").1 "tuin.db"
          = some tuinDatabase
      ∧ tuinDatabase.tables.map (fun tb => tb.spec.name)
          = ["content", "flickr", "flickrdetails", "history", "lophoto",
             "node", "taxonomy", "term", "vocabulary", "users"]
      ∧ tuinDatabase.tables.all (fun tb => tb.rows.isEmpty) = true :=
  rebuild_resets_schema [("tuin.db", emptyDatabase)] "tuin.db" emptyDatabase rfl

/-- Claim C7 is false as stated: the declared `flickrdetails` table has
ten `url_*` columns, not twelve. -/
theorem flickrdetails_twelve_urls_cex :
    ¬ (flickrDetailsSpec.columns.filter
        (fun c => c.cname.data.take 4 = "url_".data)).length = 12 := by
  decide

/-- Claim C7 (amended): `flickrdetails` is keyed by `photo_id` and
declares, besides the capture timestamp and the title, exactly ten
required (NOT NULL, Text) size-variant URL columns. -/
theorem flickrdetails_schema :
    flickrDetailsSpec.columns.map (fun c => c.cname)
        = ["photo_id", "datetaken", "title", "url_c", "url_l", "url_m",
           "url_n", "url_o", "url_q", "url_s", "url_sq", "url_t", "url_z"]
      ∧ (flickrDetailsSpec.columns.filter
            (fun c => c.cname.data.take 4 = "url_".data)).length = 10
      ∧ (flickrDetailsSpec.columns.filter
            (fun c => c.cname.data.take 4 = "url_".data)).all
          (fun c => !c.nullable && c.ctype == ColType.text) = true
      ∧ (flickrDetailsSpec.columns.filter (fun c => c.primaryKey)).map
          (fun c => c.cname) = ["photo_id"] := by
  refine ⟨rfl, by decide, by decide, rfl⟩

/-- The path recorded in the connection string built by `init_session`. -/
theorem connPath_init_session (p : String) (e : Bool) :
    connPath (init_session p e) = p := by
  simp only [connPath, init_session, set_session4engine, set_engine]
  rw [String.data_append]
  rw [show (10 : Nat) = "sqlite:///".data.length from rfl]
  rw [List.drop_left]

/-- Claim C8: with an existing database file, the session returned by
`init_session` is usable and a query returns the stored rows while the
filesystem — hence every table's rows — stays exactly as before. -/
theorem init_session_query_preserves (fs : FS) (p : String) (e : Bool)
    (d : Database) (t : String) (tb : Table)
    (hf : FS.lookup fs p = some d) (ht : findTable d t = some tb) :
    queryAll fs (init_session p e) t = (fs, Except.ok tb.rows) := by
  have hc : sqliteConnect fs p = fs := by simp [sqliteConnect, hf]
  simp [queryAll, connPath_init_session, hc, hf, ht]

/-- Witness for C8 on a freshly rebuilt database file. -/
theorem init_session_query_preserves_witness :
    queryAll sampleFS (init_session "tuin.db" false) "content"
      = (sampleFS, Except.ok ([] : List Row)) :=
  init_session_query_preserves sampleFS "tuin.db" false tuinDatabase "content"
    (Table.mk contentSpec []) rfl rfl

/-- Claim C9 is false as stated: with a missing database file, the query
over the declared `content` table errors with a no-such-table failure
instead of returning zero rows. -/
theorem query_missing_file_cex :
    (queryAll [] (init_session "tuin.db" false) "content").2
      = Except.error (QueryError.noSuchTable "content") := by
  rfl

/-- Claim C9 (amended): `init_session` on a missing path raises no error;
the first query creates an empty, table-less database file and then
fails with a no-such-table error for any queried table, rather than
returning zero rows. -/
theorem query_missing_file_no_such_table (fs : FS) (p : String) (e : Bool)
    (t : String) (h : FS.lookup fs p = none) :
    queryAll fs (init_session p e) t
      = (fs ++ [(p, emptyDatabase)], Except.error (QueryError.noSuchTable t)) := by
  have hc : sqliteConnect fs p = fs ++ [(p, emptyDatabase)] := by
    simp [sqliteConnect, h]
  have h3 := lookup_append_single fs p emptyDatabase h
  simp only [queryAll, connPath_init_session, hc, h3]
  rfl

/-- Witness for the amended C9 on the empty filesystem. -/
theorem query_missing_file_no_such_table_witness :
    queryAll [] (init_session "x.db" false) "node"
      = ([("x.db", emptyDatabase)], Except.error (QueryError.noSuchTable "node")) :=
  query_missing_file_no_such_table [] "x.db" false "node" rfl
